import Mathlib

/-!
Verification development for the `emb_alloc` fixed-capacity memory pool
allocator (`src/emb_alloc.c`, `src/emb_alloc_util.c`,
`src/emb_alloc_internal.h`).

The pool's data-block area is embedded as a flat byte region (`List Nat`,
one entry per byte).  Addresses are the byte offsets used by the C code,
with the first data block placed at `EMB_ALLOC_FIRST_BLOCK_ADDR` (the size
of the control header on an LP64 target; the exact value is irrelevant to
the properties proved here).  The control structures that the C code keeps
inside the pool header (settings, category table, aux data) are modelled
as structured fields of `EmbPool`.  The error callback and the error dump
file are modelled by the `error_log` trace: one entry per call of
`EmbAllocSetErrorInternal` (which is exactly one callback invocation in the
C code).  The mutex machinery is omitted (concurrency is out of scope of a
shallow embedding); all functions model the single-threaded execution.
-/

/-- `EMB_ALLOC_ALIGN_AMOUNT`: `2 * sizeof(size_t)`, i.e. 16 on an LP64 target. -/
def EMB_ALLOC_ALIGN_AMOUNT : Nat := 16

/-- `EMB_ALLOC_ALIGN_SIZE`: round `size` up to a multiple of the alignment. -/
def EMB_ALLOC_ALIGN_SIZE (size : Nat) : Nat :=
  (size + (EMB_ALLOC_ALIGN_AMOUNT - 1)) / EMB_ALLOC_ALIGN_AMOUNT * EMB_ALLOC_ALIGN_AMOUNT

/-- `EMB_ALLOC_BLOCK_CONTROL_ALIGN_SIZE` = `3 * EMB_ALLOC_ALIGN_AMOUNT`. -/
def EMB_ALLOC_BLOCK_CONTROL_ALIGN_SIZE : Nat := 3 * EMB_ALLOC_ALIGN_AMOUNT

/-- `EMB_ALLOC_BLOCK_START_CONTROL_ALIGN_SIZE` = `2 * EMB_ALLOC_ALIGN_AMOUNT`. -/
def EMB_ALLOC_BLOCK_START_CONTROL_ALIGN_SIZE : Nat := 2 * EMB_ALLOC_ALIGN_AMOUNT

/-- `EMB_ALLOC_BLOCK_TOTAL_ALIGN_SIZE(data_size)`: the stride of one block. -/
def EMB_ALLOC_BLOCK_TOTAL_ALIGN_SIZE (data_size : Nat) : Nat :=
  data_size + EMB_ALLOC_BLOCK_CONTROL_ALIGN_SIZE

/-- `EMB_ALLOC_VALUE_NOT_SET` = `SIZE_MAX` on a 64-bit target. -/
def EMB_ALLOC_VALUE_NOT_SET : Nat := 2 ^ 64 - 1

/-- `EMB_ALLOC_INIT_VALUE` = `0xAC`, the poison byte. -/
def EMB_ALLOC_INIT_VALUE : Nat := 0xAC

/-- `EMB_ALLOC_NUM_BLOCK_CATEGORIES` = 8. -/
def EMB_ALLOC_NUM_BLOCK_CATEGORIES : Nat := 8

/-- `kEmbAllocBlockStart`: the 16-byte block start marker from `emb_alloc.c`. -/
def kEmbAllocBlockStart : List Nat :=
  [0xF0, 0x0D, 0xFA, 0xCE, 0xDE, 0xAD, 0xBE, 0xEF,
   0xDE, 0xCE, 0xCA, 0xDE, 0xF0, 0xCA, 0xAC, 0xDC]

/-- `kEmbAllocBlockEnd`: the 16-byte block end marker from `emb_alloc.c`. -/
def kEmbAllocBlockEnd : List Nat :=
  [0xAC, 0xDC, 0xDE, 0xCE, 0xCA, 0xDE, 0xF0, 0xCA,
   0xDE, 0xAD, 0xBE, 0xEF, 0xF0, 0x0D, 0xFA, 0xCE]

/-- Little-endian decoding of a byte list into a machine word value. -/
def decodeWord (bs : List Nat) : Nat := bs.foldr (fun b acc => b + 256 * acc) 0

/-- Little-endian encoding of a machine word (`size_t`, 8 bytes). -/
def encodeWord (v : Nat) : List Nat :=
  [v % 256, v / 256 % 256, v / 256 ^ 2 % 256, v / 256 ^ 3 % 256,
   v / 256 ^ 4 % 256, v / 256 ^ 5 % 256, v / 256 ^ 6 % 256, v / 256 ^ 7 % 256]

/-- Read `len` bytes of a flat byte region starting at offset `off`. -/
def readBytes (mem : List Nat) (off len : Nat) : List Nat := (mem.drop off).take len

/-- Overwrite the bytes of a flat byte region starting at offset `off`. -/
def writeBytes (mem : List Nat) (off : Nat) (bs : List Nat) : List Nat :=
  mem.take off ++ bs ++ mem.drop (off + bs.length)

/-- `memset(mem + off, v, len)` on a flat byte region. -/
def memsetBytes (mem : List Nat) (off len v : Nat) : List Nat :=
  writeBytes mem off (List.replicate len v)

/-- Read a `size_t` word at byte offset `off`. -/
def readWord (mem : List Nat) (off : Nat) : Nat := decodeWord (readBytes mem off 8)

/-- Write a `size_t` word at byte offset `off`. -/
def writeWord (mem : List Nat) (off v : Nat) : List Nat := writeBytes mem off (encodeWord v)

/-- `0 == memcmp (buffer, buffer + 1, size - 1)`: each byte equals its successor. -/
def adjacentEqual : List Nat → Bool
  | [] => true
  | [_] => true
  | a :: b :: rest => a == b && adjacentEqual (b :: rest)

/-- `EmbAllocCheckBuffer` from `emb_alloc_util.c`.  The buffer is a byte
list (`none` models a NULL buffer; the C `size` parameter is the list
length).  A NULL buffer or a zero size returns true; otherwise the result
is `buffer[0] == reference_value && 0 == memcmp (buffer, buffer + 1, size - 1)`. -/
def EmbAllocCheckBuffer (buffer : Option (List Nat)) (reference_value : Nat) : Bool :=
  match buffer with
  | none => true
  | some [] => true
  | some (b :: rest) => (b == reference_value) && adjacentEqual (b :: rest)

/-- The `EmbAllocErrors` enum from `emb_alloc.h`. -/
inductive EmbAllocErrors where
  | kEmbAllocNoErr
  | kEmbAllocInconsistentSettings
  | kEmbAllocThreadSyncError
  | kEmbAllocOutputParamError
  | kEmbAllocInvalidMempool
  | kEmbAllocNoMemory
  | kEmbAllocOverflow
  | kEmbAllocInconsistentBlocks
  | kEmbAllocPointerParamError
deriving DecidableEq, Inhabited

export EmbAllocErrors (kEmbAllocNoErr kEmbAllocInconsistentSettings
  kEmbAllocThreadSyncError kEmbAllocOutputParamError kEmbAllocInvalidMempool
  kEmbAllocNoMemory kEmbAllocOverflow kEmbAllocInconsistentBlocks
  kEmbAllocPointerParamError)

/-- Error strings from `emb_alloc_internal.h` (base messages; the C code may
append a memory-location suffix, which this model keeps in the error log
instead). -/
def EMB_ALLOC_INCONSISTENT_SETTINGS : String := "The mempool settings are inconsistent."

def EMB_ALLOC_NOT_ENOUGH_MEMORY_ERROR : String := "The mempool is full. Cannot allocate memory."

def EMB_ALLOC_OVERFLOW_ERROR : String := "Memory overflow detected."

def EMB_ALLOC_BLOCK_INCONSISTENCY_ERROR : String :=
  "Inconsistency found in the data blocks management section."

def EMB_ALLOC_INVALID_POINTER_PARAM_ERROR : String := "Invalid pointer input parameter."

/-- `EmbAllocMemPoolSettings` from `emb_alloc.h`.  The error callback and
dump file name are not part of the state model (errors are traced in
`EmbPool.error_log`). -/
structure EmbAllocMemPoolSettings where
  total_size : Nat
  num_32_bytes_blocks : Nat
  num_64_bytes_blocks : Nat
  num_128_bytes_blocks : Nat
  num_256_bytes_blocks : Nat
  num_512_bytes_blocks : Nat
  num_1k_bytes_blocks : Nat
  num_2k_bytes_blocks : Nat
  num_4k_bytes_blocks : Nat
  threadsafe : Bool
  full_overflow_checks : Bool
  init_allocated_memory : Bool
deriving DecidableEq, Inhabited

/-- `EmbAllocBlockCategory` from `emb_alloc_internal.h`.  Addresses are
`Option Nat` (`none` models the NULL pointer). -/
structure EmbAllocBlockCategory where
  start_address : Option Nat
  first_free_address : Option Nat
  last_free_address : Option Nat
  last_address : Option Nat
  block_data_size : Nat
  total_blocks : Nat
  occupied_blocks : Nat
deriving DecidableEq, Inhabited

/-- The mempool state: settings, category table, aux error data and the flat
byte region of the data blocks.  `error_log` is the trace of
`EmbAllocSetErrorInternal` calls (error code, optional memory location),
i.e. the sequence of error-callback invocations. -/
structure EmbPool where
  settings : EmbAllocMemPoolSettings
  categories : List EmbAllocBlockCategory
  last_error : EmbAllocErrors
  last_error_message : String
  error_log : List (EmbAllocErrors × Option Nat)
  mem : List Nat
deriving DecidableEq, Inhabited

/-- Byte offset of the control header preceding the data blocks:
`EMB_ALLOC_ALIGN_AMOUNT` (pool start marker) plus the aligned sizes of the
settings record (sizeof 216 on LP64/glibc), the category table (8 * 56
bytes) and the aux record (sizeof 560).  The data-block addresses used in
this model start here;  only address differences matter for the verified
properties. -/
def EMB_ALLOC_FIRST_BLOCK_ADDR : Nat :=
  EMB_ALLOC_ALIGN_AMOUNT + EMB_ALLOC_ALIGN_SIZE 216 +
    EMB_ALLOC_ALIGN_SIZE (8 * 56) + EMB_ALLOC_ALIGN_SIZE 560

/-- Translate a pool address into an index of `EmbPool.mem`. -/
def memOff (a : Nat) : Nat := a - EMB_ALLOC_FIRST_BLOCK_ADDR

/-- The raw value of a C pointer (`NULL` is the numeric 0). -/
def addrVal : Option Nat → Nat
  | none => 0
  | some a => a

/-- Read bytes of the pool's data-block region at a pool address. -/
def poolReadBytes (p : EmbPool) (a len : Nat) : List Nat := readBytes p.mem (memOff a) len

/-- Read a `size_t` word of the pool's data-block region at a pool address. -/
def poolReadWord (p : EmbPool) (a : Nat) : Nat := readWord p.mem (memOff a)

/-- Write bytes of the pool's data-block region at a pool address. -/
def poolWriteBytes (p : EmbPool) (a : Nat) (bs : List Nat) : EmbPool :=
  { p with mem := writeBytes p.mem (memOff a) bs }

/-- Write a `size_t` word of the pool's data-block region at a pool address. -/
def poolWriteWord (p : EmbPool) (a v : Nat) : EmbPool :=
  { p with mem := writeWord p.mem (memOff a) v }

/-- `memset` on the pool's data-block region at a pool address. -/
def poolMemset (p : EmbPool) (a len v : Nat) : EmbPool :=
  { p with mem := memsetBytes p.mem (memOff a) len v }

/-- Replace the category record at index `ci`. -/
def setCategory (p : EmbPool) (ci : Nat) (cat : EmbAllocBlockCategory) : EmbPool :=
  { p with categories := p.categories.set ci cat }

/-- `ClearMempoolErrorInternal` from `emb_alloc.c`. -/
def ClearMempoolErrorInternal (p : EmbPool) : EmbPool :=
  { p with last_error := kEmbAllocNoErr, last_error_message := "" }

/-- `EmbAllocSetErrorInternal` from `emb_alloc.c`: record the last error
code and (base) message, and append one entry to the error log (the C code
invokes the user callback and appends to the dump file here). -/
def EmbAllocSetErrorInternal (p : EmbPool) (error : EmbAllocErrors)
    (error_message : String) (error_memory_location : Option Nat) : EmbPool :=
  { p with
    last_error := error
    last_error_message := error_message
    error_log := p.error_log ++ [(error, error_memory_location)] }

/-- `EmbAllocGetLastErrorCode` from `emb_alloc.c` (on a valid pool). -/
def EmbAllocGetLastErrorCode (p : EmbPool) : EmbAllocErrors := p.last_error

/-- The recomputed `total_size` of `EmbAllocSanitizeSettingsInternal`:
the sum of the per-category capacities. -/
def computedTotalSize (s : EmbAllocMemPoolSettings) : Nat :=
  s.num_32_bytes_blocks * 32 + s.num_64_bytes_blocks * 64 +
  s.num_128_bytes_blocks * 128 + s.num_256_bytes_blocks * 256 +
  s.num_512_bytes_blocks * 512 + s.num_1k_bytes_blocks * 1024 +
  s.num_2k_bytes_blocks * 2048 + s.num_4k_bytes_blocks * 4096

/-- `EmbAllocSanitizeSettingsInternal` from `emb_alloc.c`: overwrite
`total_size` with the sum of the per-category capacities and report whether
the caller-supplied value already matched.  (The dump-file removal side
effect is outside the model.) -/
def EmbAllocSanitizeSettingsInternal (s : EmbAllocMemPoolSettings) :
    EmbAllocMemPoolSettings × Bool :=
  let sanitized := { s with total_size := computedTotalSize s }
  (sanitized, sanitized.total_size == s.total_size)

/-- The total number of blocks of a settings record. -/
def totalNumBlocks (s : EmbAllocMemPoolSettings) : Nat :=
  s.num_32_bytes_blocks + s.num_64_bytes_blocks + s.num_128_bytes_blocks +
  s.num_256_bytes_blocks + s.num_512_bytes_blocks + s.num_1k_bytes_blocks +
  s.num_2k_bytes_blocks + s.num_4k_bytes_blocks

/-- `EmbAllocGetMemoryRequirementsInternal` from `emb_alloc.c`. -/
def EmbAllocGetMemoryRequirementsInternal (s : EmbAllocMemPoolSettings) : Nat :=
  (2 * EMB_ALLOC_ALIGN_AMOUNT + EMB_ALLOC_ALIGN_SIZE 216 +
    EMB_ALLOC_ALIGN_SIZE (8 * 56) + EMB_ALLOC_ALIGN_SIZE 560) +
  EMB_ALLOC_BLOCK_CONTROL_ALIGN_SIZE * totalNumBlocks s + s.total_size

/-- `EmbAllocGetCategorySettingsInternal` from `emb_alloc.c`:
`(block data size, number of blocks)` for a category index. -/
def EmbAllocGetCategorySettingsInternal (s : EmbAllocMemPoolSettings) (idx : Nat) :
    Nat × Nat :=
  match idx with
  | 0 => (32, s.num_32_bytes_blocks)
  | 1 => (64, s.num_64_bytes_blocks)
  | 2 => (128, s.num_128_bytes_blocks)
  | 3 => (256, s.num_256_bytes_blocks)
  | 4 => (512, s.num_512_bytes_blocks)
  | 5 => (1024, s.num_1k_bytes_blocks)
  | 6 => (2048, s.num_2k_bytes_blocks)
  | 7 => (4096, s.num_4k_bytes_blocks)
  | _ => (0, 0)

/-- `EmbAllocInitializeBlockCategoriesInternal` from `emb_alloc.c`: build
the category table in ascending block-size order, with the block regions
laid out consecutively from `EMB_ALLOC_FIRST_BLOCK_ADDR`. -/
def EmbAllocInitializeBlockCategoriesInternal (s : EmbAllocMemPoolSettings) :
    List EmbAllocBlockCategory :=
  ((List.range EMB_ALLOC_NUM_BLOCK_CATEGORIES).foldl
    (fun (acc : List EmbAllocBlockCategory × Nat) i =>
      let ds_nb := EmbAllocGetCategorySettingsInternal s i
      let stride := EMB_ALLOC_BLOCK_TOTAL_ALIGN_SIZE ds_nb.1
      let cat : EmbAllocBlockCategory :=
        if ds_nb.2 ≠ 0 then
          { start_address := some acc.2
            first_free_address := some acc.2
            last_free_address := some (acc.2 + (ds_nb.2 - 1) * stride)
            last_address := some (acc.2 + (ds_nb.2 - 1) * stride)
            block_data_size := ds_nb.1
            total_blocks := ds_nb.2
            occupied_blocks := 0 }
        else
          { start_address := none, first_free_address := none
            last_free_address := none, last_address := none
            block_data_size := ds_nb.1, total_blocks := 0, occupied_blocks := 0 }
      (acc.1 ++ [cat], acc.2 + ds_nb.2 * stride))
    ([], EMB_ALLOC_FIRST_BLOCK_ADDR)).1

/-- The byte content of one freshly initialised (free) block: start marker,
both counters `EMB_ALLOC_VALUE_NOT_SET`, poisoned payload, end marker.
This is the net effect of `EmbAllocInitializeInternal`'s poison memset
followed by `EmbAllocInitializeDataBlocksInternal`'s per-block writes. -/
def freeBlockBytes (data_size : Nat) : List Nat :=
  kEmbAllocBlockStart ++ encodeWord EMB_ALLOC_VALUE_NOT_SET ++
    encodeWord EMB_ALLOC_VALUE_NOT_SET ++
    List.replicate data_size EMB_ALLOC_INIT_VALUE ++ kEmbAllocBlockEnd

/-- `EmbAllocInitializeDataBlocksInternal` from `emb_alloc.c`: the initial
flat byte region of the data blocks (all blocks free). -/
def EmbAllocInitializeDataBlocksInternal (s : EmbAllocMemPoolSettings) : List Nat :=
  ((List.range EMB_ALLOC_NUM_BLOCK_CATEGORIES).map (fun i =>
    let ds_nb := EmbAllocGetCategorySettingsInternal s i
    (List.replicate ds_nb.2 (freeBlockBytes ds_nb.1)).flatten)).flatten

/-- `EmbAllocCreate` from `emb_alloc.c` (for a non-NULL settings argument).
`host_alloc_ok` models the success of the host `malloc` of the backing
region; on failure the C code invokes the callback with `kEmbAllocNoMemory`
and returns NULL, without any pool to record the error on. -/
def EmbAllocCreate (settings : EmbAllocMemPoolSettings) (host_alloc_ok : Bool) :
    Option EmbPool :=
  let san := EmbAllocSanitizeSettingsInternal settings
  if host_alloc_ok then
    let pool : EmbPool :=
      { settings := san.1
        categories := EmbAllocInitializeBlockCategoriesInternal san.1
        last_error := kEmbAllocNoErr
        last_error_message := ""
        error_log := []
        mem := EmbAllocInitializeDataBlocksInternal san.1 }
    some (if san.2 then pool
          else EmbAllocSetErrorInternal pool kEmbAllocInconsistentSettings
            EMB_ALLOC_INCONSISTENT_SETTINGS none)
  else none

/-- `EMB_ALLOC_CAN_ALLOC_IN_A_BLOCK` from `emb_alloc_internal.h`. -/
def EMB_ALLOC_CAN_ALLOC_IN_A_BLOCK (category : EmbAllocBlockCategory) (size : Nat) : Bool :=
  size ≤ category.block_data_size && category.occupied_blocks < category.total_blocks

/-- The `*blocks_count` computation of `EmbAllocCanAllocInMultipleBlocksInternal`:
`BLOCK_TOTAL_ALIGN_SIZE(size) / BLOCK_TOTAL_ALIGN_SIZE(d)`, rounded up when
the division has a remainder.  The operands are `size_t` values, so the
additions of `EMB_ALLOC_BLOCK_TOTAL_ALIGN_SIZE` wrap modulo `2 ^ 64`
(division of two `size_t` values cannot overflow). -/
def embMultiBlocksCount (size data_size : Nat) : Nat :=
  let total_size := EMB_ALLOC_BLOCK_TOTAL_ALIGN_SIZE size % 2 ^ 64
  let total_data_size := EMB_ALLOC_BLOCK_TOTAL_ALIGN_SIZE data_size % 2 ^ 64
  total_size / total_data_size + (if total_size % total_data_size ≠ 0 then 1 else 0)

/-- The while loop of `EmbAllocCanAllocInMultipleBlocksInternal`
(`emb_alloc.c` lines 1074-1098), walking `verified_block` from
`first_free_address` while it does not exceed `last_free_address`:
a block whose use counter is `EMB_ALLOC_VALUE_NOT_SET` extends the current
run of consecutive free blocks (recording its start); reaching
`blocks_count` consecutive free blocks returns success; an occupied block
resets the run and, when `(last_free_address - verified_block) / stride`
exceeds `blocks_count`, returns failure early (this comparison is
translated verbatim from the source).  The first component of the result
is the C return value, the second is the `*block` output parameter.
The `fuel` argument only bounds the structural recursion; callers pass
enough fuel for the loop to exit through its own conditions. -/
def embMultiScanLoop (mem : List Nat) (stride lfa blocks_count : Nat) :
    Nat → Nat → Nat → Option Nat → Bool × Option Nat
  | 0, _, _, _ => (false, none)
  | fuel + 1, verified_block, counter, block =>
    if verified_block ≤ lfa then
      if readWord mem (memOff (verified_block + EMB_ALLOC_ALIGN_AMOUNT)) =
          EMB_ALLOC_VALUE_NOT_SET then
        let block' := match block with
          | none => some verified_block
          | some b => some b
        let counter' := counter + 1
        if blocks_count ≤ counter' then (true, block')
        else embMultiScanLoop mem stride lfa blocks_count fuel
          (verified_block + stride) counter' block'
      else
        if blocks_count < (lfa - verified_block) / stride then (false, none)
        else embMultiScanLoop mem stride lfa blocks_count fuel
          (verified_block + stride) 0 none
    else (false, none)

/-- `EmbAllocCanAllocInMultipleBlocksInternal` from `emb_alloc.c`.
Returns `(return value, *block, *blocks_count, pool)` (the pool is threaded
because the inconsistency branches record errors and saturate the
category). -/
def EmbAllocCanAllocInMultipleBlocksInternal (p : EmbPool) (ci : Nat) (size : Nat) :
    Bool × Option Nat × Nat × EmbPool :=
  let category := p.categories.getD ci default
  if category.total_blocks ≤ category.occupied_blocks then
    (false, none, 0,
      EmbAllocSetErrorInternal p kEmbAllocInconsistentBlocks
        EMB_ALLOC_BLOCK_INCONSISTENCY_ERROR none)
  else
    match category.first_free_address, category.last_free_address with
    | some ffa, some lfa =>
      let stride := EMB_ALLOC_BLOCK_TOTAL_ALIGN_SIZE category.block_data_size
      let blocks_count := embMultiBlocksCount size category.block_data_size
      if category.total_blocks < category.occupied_blocks + blocks_count then
        (false, none, blocks_count, p)
      else
        let scanned := embMultiScanLoop p.mem stride lfa blocks_count
          ((lfa - ffa) / stride + 2) ffa 0 none
        (scanned.1, scanned.2, blocks_count, p)
    | _, _ =>
      (false, none, 0,
        setCategory
          (EmbAllocSetErrorInternal p kEmbAllocInconsistentBlocks
            EMB_ALLOC_BLOCK_INCONSISTENCY_ERROR none)
          ci
          { category with
              occupied_blocks := category.total_blocks
              first_free_address := none
              last_free_address := none })

/-- `EmbAllocMergeFreeBlocksInternal` from `emb_alloc.c`: for each of the
`blocks_count` blocks starting at `block`, verify the start marker, the end
padding and both counters (recording an `Overflow` error for each mismatch),
optionally verify the poisoned payload (`full_overflow_checks`), then poison
the start control section and end padding of every block except, when
requested, the start of the first and the end of the last. -/
def EmbAllocMergeFreeBlocksInternal (p : EmbPool) (ci : Nat) (block : Nat)
    (blocks_count : Nat) (keep_start keep_end : Bool) : EmbPool :=
  let data_size := (p.categories.getD ci default).block_data_size
  let stride := EMB_ALLOC_BLOCK_TOTAL_ALIGN_SIZE data_size
  (List.range blocks_count).foldl (fun acc i =>
    let current_block := block + i * stride
    let block_end_padding := current_block + EMB_ALLOC_BLOCK_START_CONTROL_ALIGN_SIZE + data_size
    let data_pointer := current_block + EMB_ALLOC_BLOCK_START_CONTROL_ALIGN_SIZE
    let p1 := if poolReadBytes acc current_block EMB_ALLOC_ALIGN_AMOUNT = kEmbAllocBlockStart
      then acc
      else EmbAllocSetErrorInternal acc kEmbAllocOverflow EMB_ALLOC_OVERFLOW_ERROR
        (some current_block)
    let p2 := if poolReadBytes p1 block_end_padding EMB_ALLOC_ALIGN_AMOUNT = kEmbAllocBlockEnd
      then p1
      else EmbAllocSetErrorInternal p1 kEmbAllocOverflow EMB_ALLOC_OVERFLOW_ERROR
        (some block_end_padding)
    let p3 := if poolReadWord p2 (current_block + EMB_ALLOC_ALIGN_AMOUNT) =
        EMB_ALLOC_VALUE_NOT_SET then p2
      else EmbAllocSetErrorInternal p2 kEmbAllocOverflow EMB_ALLOC_OVERFLOW_ERROR
        (some (current_block + EMB_ALLOC_ALIGN_AMOUNT))
    let p4 := if poolReadWord p3 (current_block + EMB_ALLOC_ALIGN_AMOUNT + 8) =
        EMB_ALLOC_VALUE_NOT_SET then p3
      else EmbAllocSetErrorInternal p3 kEmbAllocOverflow EMB_ALLOC_OVERFLOW_ERROR
        (some (current_block + EMB_ALLOC_ALIGN_AMOUNT + 8))
    let p5 := if p.settings.full_overflow_checks &&
        !(EmbAllocCheckBuffer (some (poolReadBytes p4 data_pointer data_size))
          EMB_ALLOC_INIT_VALUE) then
      poolMemset
        (EmbAllocSetErrorInternal p4 kEmbAllocOverflow EMB_ALLOC_OVERFLOW_ERROR
          (some data_pointer))
        data_pointer data_size EMB_ALLOC_INIT_VALUE
      else p4
    let p6 := if !keep_start || i ≠ 0 then
        poolMemset p5 current_block EMB_ALLOC_BLOCK_START_CONTROL_ALIGN_SIZE
          EMB_ALLOC_INIT_VALUE
      else
        poolWriteWord
          (poolWriteWord (poolWriteBytes p5 current_block kEmbAllocBlockStart)
            (current_block + EMB_ALLOC_ALIGN_AMOUNT) EMB_ALLOC_VALUE_NOT_SET)
          (current_block + EMB_ALLOC_ALIGN_AMOUNT + 8) EMB_ALLOC_VALUE_NOT_SET
    if !keep_end || blocks_count - 1 ≠ i then
      poolMemset p6 block_end_padding EMB_ALLOC_ALIGN_AMOUNT EMB_ALLOC_INIT_VALUE
    else
      poolWriteBytes p6 block_end_padding kEmbAllocBlockEnd) p

/-- The cursor-advance loop shared by `EmbAllocMallocOneBlockInternal` and
`EmbAllocMallocMultiBlocksInternal`: while the moving block address does not
exceed `last_free_address`, step one stride forward and stop at the first
block whose use counter is `EMB_ALLOC_VALUE_NOT_SET`.  Returns the address
found, or `none` when the loop ends without finding one (the C code then
takes its safety-net branch).  `fuel` only bounds the recursion. -/
def embAdvanceFreeBlock (mem : List Nat) (stride lfa : Nat) : Nat → Nat → Option Nat
  | 0, _ => none
  | fuel + 1, free_block =>
    if free_block ≤ lfa then
      let fb := free_block + stride
      if readWord mem (memOff (fb + EMB_ALLOC_ALIGN_AMOUNT)) = EMB_ALLOC_VALUE_NOT_SET then
        some fb
      else embAdvanceFreeBlock mem stride lfa fuel fb
    else none

/-- `EmbAllocMallocOneBlockInternal` from `emb_alloc.c`: allocate one block
at `first_free_address`, then advance the free cursor to the next free
block (or saturate the category). -/
def EmbAllocMallocOneBlockInternal (p : EmbPool) (ci : Nat) (size : Nat) :
    Option Nat × EmbPool :=
  let category := p.categories.getD ci default
  let stride := EMB_ALLOC_BLOCK_TOTAL_ALIGN_SIZE category.block_data_size
  if category.total_blocks ≤ category.occupied_blocks then
    (none,
      EmbAllocSetErrorInternal p kEmbAllocInconsistentBlocks
        EMB_ALLOC_BLOCK_INCONSISTENCY_ERROR none)
  else
    match category.first_free_address, category.last_free_address with
    | some free_block, some lfa =>
      let return_value := free_block + EMB_ALLOC_BLOCK_START_CONTROL_ALIGN_SIZE
      let p1 := EmbAllocMergeFreeBlocksInternal p ci free_block 1 true true
      let p2 := if p.settings.init_allocated_memory then poolMemset p1 return_value size 0
        else p1
      let p3 := poolWriteWord
        (poolWriteWord p2 (free_block + EMB_ALLOC_ALIGN_AMOUNT) 1)
        (free_block + EMB_ALLOC_ALIGN_AMOUNT + 8) size
      let occupied' := category.occupied_blocks + 1
      if occupied' < category.total_blocks then
        match embAdvanceFreeBlock p3.mem stride lfa ((lfa - free_block) / stride + 2)
            free_block with
        | some found =>
          (some return_value,
            setCategory p3 ci
              { category with occupied_blocks := occupied', first_free_address := some found })
        | none =>
          (some return_value,
            setCategory p3 ci
              { category with
                  occupied_blocks := occupied'
                  first_free_address := none
                  last_free_address := none })
      else
        (some return_value,
          setCategory p3 ci
            { category with
                occupied_blocks := category.total_blocks
                first_free_address := none
                last_free_address := none })
    | _, _ =>
      (none,
        setCategory
          (EmbAllocSetErrorInternal p kEmbAllocInconsistentBlocks
            EMB_ALLOC_BLOCK_INCONSISTENCY_ERROR none)
          ci
          { category with
              occupied_blocks := category.total_blocks
              first_free_address := none
              last_free_address := none })

/-- `EmbAllocMallocMultiBlocksInternal` from `emb_alloc.c`: allocate
`blocks_count` contiguous blocks starting at `block`, merging them into one
run (inner markers poisoned), then advance the free cursor when the run
started at `first_free_address`. -/
def EmbAllocMallocMultiBlocksInternal (p : EmbPool) (ci : Nat) (size : Nat)
    (block : Option Nat) (blocks_count : Nat) : Option Nat × EmbPool :=
  let category := p.categories.getD ci default
  let stride := EMB_ALLOC_BLOCK_TOTAL_ALIGN_SIZE category.block_data_size
  if category.total_blocks ≤ category.occupied_blocks then
    (none,
      EmbAllocSetErrorInternal p kEmbAllocInconsistentBlocks
        EMB_ALLOC_BLOCK_INCONSISTENCY_ERROR none)
  else
    match block, category.first_free_address, category.last_free_address with
    | some b, some ffa, some lfa =>
      let return_value := b + EMB_ALLOC_BLOCK_START_CONTROL_ALIGN_SIZE
      let p1 := EmbAllocMergeFreeBlocksInternal p ci b blocks_count true true
      let p2 := if p.settings.init_allocated_memory then poolMemset p1 return_value size 0
        else p1
      let p3 := poolWriteWord
        (poolWriteWord p2 (b + EMB_ALLOC_ALIGN_AMOUNT) blocks_count)
        (b + EMB_ALLOC_ALIGN_AMOUNT + 8) size
      let occupied' := category.occupied_blocks + blocks_count
      if occupied' < category.total_blocks then
        if ffa = b then
          let start := b + (blocks_count - 1) * stride
          match embAdvanceFreeBlock p3.mem stride lfa ((lfa - start) / stride + 2) start with
          | some found =>
            (some return_value,
              setCategory p3 ci
                { category with
                    occupied_blocks := occupied'
                    first_free_address := some found })
          | none =>
            (some return_value,
              setCategory p3 ci
                { category with
                    occupied_blocks := occupied'
                    first_free_address := none
                    last_free_address := none })
        else
          (some return_value, setCategory p3 ci { category with occupied_blocks := occupied' })
      else
        (some return_value,
          setCategory p3 ci
            { category with
                occupied_blocks := category.total_blocks
                first_free_address := none
                last_free_address := none })
    | _, _, _ =>
      (none,
        setCategory
          (EmbAllocSetErrorInternal p kEmbAllocInconsistentBlocks
            EMB_ALLOC_BLOCK_INCONSISTENCY_ERROR none)
          ci
          { category with
              occupied_blocks := category.total_blocks
              first_free_address := none
              last_free_address := none })

/-- The outcome of the descending category scan of `EmbAllocMallocInternal`
(`emb_alloc.c` lines 783-804): either the loop returned early with the
best-fitting single-block category, or it terminated leaving
`large_size_block_idx` / `small_size_block_idx` (the sentinel value
`EMB_ALLOC_NUM_BLOCK_CATEGORIES` is modelled as `none`) together with the
`multi_block_alloc_address` / `multi_block_alloc_count` output parameters
of the last `EmbAllocCanAllocInMultipleBlocksInternal` call. -/
inductive EmbMallocScanResult where
  | bestFit (ci : Nat)
  | scanned (large_size_block_idx small_size_block_idx : Option Nat)
      (multi_block_alloc_address : Option Nat) (multi_block_alloc_count : Nat)
deriving DecidableEq

/-- The descending `for (i = 7; i > 0; i--)` loop of
`EmbAllocMallocInternal`, with the loop counter as the recursion fuel.
For each category with free blocks: a category that fits the size in one
block either returns immediately (when the next smaller category cannot
hold the size, i.e. this is the best single-block fit) or is remembered in
`large_size_block_idx`; otherwise a successful multi-block feasibility scan
records `small_size_block_idx` and breaks the loop. -/
def embMallocDescendLoop (size : Nat) :
    Nat → EmbPool → Option Nat → Option Nat → Nat → EmbMallocScanResult × EmbPool
  | 0, p, large, addr, cnt => (EmbMallocScanResult.scanned large none addr cnt, p)
  | i + 1, p, large, addr, cnt =>
    let category := p.categories.getD (i + 1) default
    if category.occupied_blocks < category.total_blocks then
      if EMB_ALLOC_CAN_ALLOC_IN_A_BLOCK category size then
        if (p.categories.getD i default).block_data_size < size then
          (EmbMallocScanResult.bestFit (i + 1), p)
        else embMallocDescendLoop size i p (some (i + 1)) addr cnt
      else
        let r := EmbAllocCanAllocInMultipleBlocksInternal p (i + 1) size
        if r.1 then
          (EmbMallocScanResult.scanned large (some (i + 1)) r.2.1 r.2.2.1, r.2.2.2)
        else embMallocDescendLoop size i r.2.2.2 large r.2.1 r.2.2.1
    else embMallocDescendLoop size i p large addr cnt

/-- The full descending category scan of `EmbAllocMallocInternal`,
starting at index `EMB_ALLOC_NUM_BLOCK_CATEGORIES - 1`. -/
def embMallocDescendingScan (p : EmbPool) (size : Nat) : EmbMallocScanResult × EmbPool :=
  embMallocDescendLoop size (EMB_ALLOC_NUM_BLOCK_CATEGORIES - 1) p none none 0

/-- `EmbAllocMallocInternal` from `emb_alloc.c`: try category 0 in a single
block first, then the descending scan; when the scan leaves no
`small_size_block_idx`, additionally try a multi-block run in category 0
(the source assigns the loop counter `i`, which is 0 whenever the loop
terminated without a break, to `small_size_block_idx`).  When both a
single-block and a multi-block candidate exist, allocate in the one whose
category retains more free payload bytes after the hypothetical allocation;
with only one candidate use it; otherwise record `kEmbAllocNoMemory`. -/
def EmbAllocMallocInternal (p : EmbPool) (size : Nat) : Option Nat × EmbPool :=
  if EMB_ALLOC_CAN_ALLOC_IN_A_BLOCK (p.categories.getD 0 default) size then
    EmbAllocMallocOneBlockInternal p 0 size
  else
    match embMallocDescendingScan p size with
    | (EmbMallocScanResult.bestFit ci, p1) => EmbAllocMallocOneBlockInternal p1 ci size
    | (EmbMallocScanResult.scanned large small addr cnt, p1) =>
      let after0 :=
        if small = none then
          let cat0 := p1.categories.getD 0 default
          if cat0.occupied_blocks < cat0.total_blocks then
            let r := EmbAllocCanAllocInMultipleBlocksInternal p1 0 size
            if r.1 then (some 0, r.2.1, r.2.2.1, r.2.2.2)
            else (none, r.2.1, r.2.2.1, r.2.2.2)
          else (small, addr, cnt, p1)
        else (small, addr, cnt, p1)
      match after0 with
      | (small2, addr2, cnt2, p2) =>
        match large, small2 with
        | some l, some s =>
          let catL := p2.categories.getD l default
          let catS := p2.categories.getD s default
          if catS.block_data_size * (catS.total_blocks - catS.occupied_blocks - cnt2) <
              catL.block_data_size * (catL.total_blocks - catL.occupied_blocks - 1) then
            EmbAllocMallocOneBlockInternal p2 l size
          else
            EmbAllocMallocMultiBlocksInternal p2 s size addr2 cnt2
        | some l, none => EmbAllocMallocOneBlockInternal p2 l size
        | none, some s => EmbAllocMallocMultiBlocksInternal p2 s size addr2 cnt2
        | none, none =>
          (none,
            EmbAllocSetErrorInternal p2 kEmbAllocNoMemory
              EMB_ALLOC_NOT_ENOUGH_MEMORY_ERROR none)

/-- `EmbAllocMalloc` from `emb_alloc.c`, on a valid pool: clear the last
error, then allocate when the size is non-zero.  (The mutex interaction is
outside the model.) -/
def EmbAllocMalloc (p : EmbPool) (size : Nat) : Option Nat × EmbPool :=
  let p0 := ClearMempoolErrorInternal p
  if size = 0 then (none, p0)
  else EmbAllocMallocInternal p0 size

/-- The category search loop of `EmbAllocGetCategoryForPtr` (`emb_alloc.c`
lines 1295-1312): find the first category whose
`[start_address, last_address]` range contains the block (C pointer
comparisons, with NULL = 0), then verify and, if needed, repair the end
padding of the run before returning the category index. -/
def embCategorySearchLoop (p : EmbPool) (block used_block_count : Nat) :
    List Nat → Option Nat × EmbPool
  | [] => (none, p)
  | i :: rest =>
    let category := p.categories.getD i default
    if addrVal category.start_address ≤ block ∧ block ≤ addrVal category.last_address then
      let block_data_size := category.block_data_size +
        (used_block_count - 1) * EMB_ALLOC_BLOCK_TOTAL_ALIGN_SIZE category.block_data_size
      let block_end_padding := block + EMB_ALLOC_BLOCK_START_CONTROL_ALIGN_SIZE + block_data_size
      if poolReadBytes p block_end_padding EMB_ALLOC_ALIGN_AMOUNT = kEmbAllocBlockEnd then
        (some i, p)
      else
        (some i,
          poolWriteBytes
            (EmbAllocSetErrorInternal p kEmbAllocOverflow EMB_ALLOC_OVERFLOW_ERROR
              (some block_end_padding))
            block_end_padding kEmbAllocBlockEnd)
    else embCategorySearchLoop p block used_block_count rest

/-- `EmbAllocGetCategoryForPtr` from `emb_alloc.c`: verify (and repair) the
block start marker, reject the pointer with an `Overflow` report when either
counter word reads `EMB_ALLOC_VALUE_NOT_SET` (forcing the other counter to
`EMB_ALLOC_VALUE_NOT_SET` as well), then search the owning category. -/
def EmbAllocGetCategoryForPtr (p : EmbPool) (ptr : Nat) : Option Nat × EmbPool :=
  let block := ptr - EMB_ALLOC_BLOCK_START_CONTROL_ALIGN_SIZE
  let p1 := if poolReadBytes p block EMB_ALLOC_ALIGN_AMOUNT = kEmbAllocBlockStart then p
    else
      poolWriteBytes
        (EmbAllocSetErrorInternal p kEmbAllocOverflow EMB_ALLOC_OVERFLOW_ERROR (some block))
        block kEmbAllocBlockStart
  if poolReadWord p1 (block + EMB_ALLOC_ALIGN_AMOUNT) = EMB_ALLOC_VALUE_NOT_SET then
    (none,
      EmbAllocSetErrorInternal
        (poolWriteWord p1 (block + EMB_ALLOC_ALIGN_AMOUNT + 8) EMB_ALLOC_VALUE_NOT_SET)
        kEmbAllocOverflow EMB_ALLOC_OVERFLOW_ERROR (some (block + EMB_ALLOC_ALIGN_AMOUNT)))
  else if poolReadWord p1 (block + EMB_ALLOC_ALIGN_AMOUNT + 8) = EMB_ALLOC_VALUE_NOT_SET then
    (none,
      EmbAllocSetErrorInternal
        (poolWriteWord p1 (block + EMB_ALLOC_ALIGN_AMOUNT) EMB_ALLOC_VALUE_NOT_SET)
        kEmbAllocOverflow EMB_ALLOC_OVERFLOW_ERROR (some (block + EMB_ALLOC_ALIGN_AMOUNT + 8)))
  else
    embCategorySearchLoop p1 block (poolReadWord p1 (block + EMB_ALLOC_ALIGN_AMOUNT))
      (List.range EMB_ALLOC_NUM_BLOCK_CATEGORIES)

/-- `EmbAllocFreeBlockInternal` from `emb_alloc.c`: optionally verify the
unused tail bytes, poison the whole run payload, restore every block of the
run to its free state, decrement `occupied_blocks` by the run length and
relax both free cursors towards the first block of the run. -/
def EmbAllocFreeBlockInternal (p : EmbPool) (ci : Nat) (ptr : Nat) : EmbPool :=
  let category := p.categories.getD ci default
  let stride := EMB_ALLOC_BLOCK_TOTAL_ALIGN_SIZE category.block_data_size
  let block := ptr - EMB_ALLOC_BLOCK_START_CONTROL_ALIGN_SIZE
  let used_block_count := poolReadWord p (block + EMB_ALLOC_ALIGN_AMOUNT)
  let data_size := poolReadWord p (block + EMB_ALLOC_ALIGN_AMOUNT + 8)
  let block_data_size := category.block_data_size + (used_block_count - 1) * stride
  let p1 := if p.settings.full_overflow_checks &&
      !(EmbAllocCheckBuffer
        (some (poolReadBytes p (ptr + data_size) (block_data_size - data_size)))
        EMB_ALLOC_INIT_VALUE) then
    EmbAllocSetErrorInternal p kEmbAllocOverflow EMB_ALLOC_OVERFLOW_ERROR
      (some (ptr + data_size))
    else p
  let p2 := poolMemset p1 ptr block_data_size EMB_ALLOC_INIT_VALUE
  let p3 := (List.range used_block_count).foldl (fun acc i =>
    let freed_block := block + i * stride
    poolWriteWord
      (poolWriteWord
        (poolWriteBytes
          (poolWriteBytes acc freed_block kEmbAllocBlockStart)
          (freed_block + EMB_ALLOC_BLOCK_START_CONTROL_ALIGN_SIZE + category.block_data_size)
          kEmbAllocBlockEnd)
        (freed_block + EMB_ALLOC_ALIGN_AMOUNT) EMB_ALLOC_VALUE_NOT_SET)
      (freed_block + EMB_ALLOC_ALIGN_AMOUNT + 8) EMB_ALLOC_VALUE_NOT_SET) p2
  let first_free' := match category.first_free_address with
    | none => some block
    | some f => if block < f then some block else some f
  let last_free' := match category.last_free_address with
    | none => some block
    | some l => if l < block then some block else some l
  setCategory p3 ci
    { category with
      occupied_blocks := category.occupied_blocks - used_block_count
      first_free_address := first_free'
      last_free_address := last_free' }

/-- `EmbAllocFreeInternal` from `emb_alloc.c`: locate the owning category
and free the run there, or record `kEmbAllocPointerParamError`. -/
def EmbAllocFreeInternal (p : EmbPool) (ptr : Nat) : EmbPool :=
  match EmbAllocGetCategoryForPtr p ptr with
  | (some ci, p1) => EmbAllocFreeBlockInternal p1 ci ptr
  | (none, p1) =>
    EmbAllocSetErrorInternal p1 kEmbAllocPointerParamError
      EMB_ALLOC_INVALID_POINTER_PARAM_ERROR none

/-- `EmbAllocFree` from `emb_alloc.c`, on a valid pool: clear the last
error; a NULL pointer is a no-op; a pointer whose preceding bytes are not
the block start marker records `kEmbAllocPointerParamError`; otherwise the
run is freed.  (The mutex interaction is outside the model.) -/
def EmbAllocFree (p : EmbPool) (ptr : Option Nat) : EmbPool :=
  let p0 := ClearMempoolErrorInternal p
  match ptr with
  | none => p0
  | some a =>
    if poolReadBytes p0 (a - EMB_ALLOC_BLOCK_START_CONTROL_ALIGN_SIZE)
        EMB_ALLOC_ALIGN_AMOUNT = kEmbAllocBlockStart then
      EmbAllocFreeInternal p0 a
    else
      EmbAllocSetErrorInternal p0 kEmbAllocPointerParamError
        EMB_ALLOC_INVALID_POINTER_PARAM_ERROR none

/-- The `required_extra_blocks` computation of
`EmbAllocReallocBlockInternal`: `(size - block_data_size) / stride`,
rounded up when the division has a remainder. -/
def embRequiredExtraBlocks (size block_data_size stride : Nat) : Nat :=
  (size - block_data_size) / stride +
    (if (size - block_data_size) % stride ≠ 0 then 1 else 0)

/-- The continuity check of `EmbAllocReallocBlockInternal` (`emb_alloc.c`
lines 1562-1572): the `required_extra_blocks` blocks immediately after the
current run must all have an unset use counter. -/
def embCanReallocContinuously (p : EmbPool) (block stride used_block_count
    required_extra_blocks : Nat) : Bool :=
  (List.range required_extra_blocks).all (fun i =>
    poolReadWord p (block + (used_block_count + i) * stride + EMB_ALLOC_ALIGN_AMOUNT) ==
      EMB_ALLOC_VALUE_NOT_SET)

/-- `EmbAllocReallocBlockInternal` from `emb_alloc.c`: same size returns
the pointer; a smaller size poisons the freed suffix and shrinks
`data_size` (the run is not shortened); a size still below the run's
payload capacity grows in place (zeroing the grown region when
`init_allocated_memory` is set); otherwise the run is extended in place by
the required number of adjacent free blocks when they exist, and failing
that the data is moved: a fresh allocation is attempted, the payload is
copied on success, and the original run is freed unconditionally. -/
def EmbAllocReallocBlockInternal (p : EmbPool) (ci : Nat) (ptr size : Nat) :
    Option Nat × EmbPool :=
  let category := p.categories.getD ci default
  let stride := EMB_ALLOC_BLOCK_TOTAL_ALIGN_SIZE category.block_data_size
  let block := ptr - EMB_ALLOC_BLOCK_START_CONTROL_ALIGN_SIZE
  let used0 := poolReadWord p (block + EMB_ALLOC_ALIGN_AMOUNT)
  let dsz0 := poolReadWord p (block + EMB_ALLOC_ALIGN_AMOUNT + 8)
  let block_data_size := category.block_data_size + (used0 - 1) * stride
  let p1 := if p.settings.full_overflow_checks &&
      !(EmbAllocCheckBuffer
        (some (poolReadBytes p (ptr + dsz0) (block_data_size - dsz0)))
        EMB_ALLOC_INIT_VALUE) then
    poolMemset
      (EmbAllocSetErrorInternal p kEmbAllocOverflow EMB_ALLOC_OVERFLOW_ERROR
        (some (ptr + dsz0)))
      (ptr + dsz0) (block_data_size - dsz0) EMB_ALLOC_INIT_VALUE
    else p
  let data_size := poolReadWord p1 (block + EMB_ALLOC_ALIGN_AMOUNT + 8)
  let used_block_count := poolReadWord p1 (block + EMB_ALLOC_ALIGN_AMOUNT)
  if size = data_size then (some ptr, p1)
  else if size < data_size then
    (some ptr,
      poolWriteWord
        (poolMemset p1 (ptr + size) (data_size - size) EMB_ALLOC_INIT_VALUE)
        (block + EMB_ALLOC_ALIGN_AMOUNT + 8) size)
  else if size < block_data_size then
    let p2 := if p.settings.init_allocated_memory then
        poolMemset p1 (ptr + data_size) (size - data_size) 0
      else p1
    (some ptr, poolWriteWord p2 (block + EMB_ALLOC_ALIGN_AMOUNT + 8) size)
  else
    let required_extra_blocks := embRequiredExtraBlocks size block_data_size stride
    if required_extra_blocks ≤ category.total_blocks - category.occupied_blocks ∧
        embCanReallocContinuously p1 block stride used_block_count
          required_extra_blocks = true then
      let block_end_padding := block + EMB_ALLOC_BLOCK_START_CONTROL_ALIGN_SIZE +
        block_data_size
      let p2 := EmbAllocMergeFreeBlocksInternal p1 ci
        (block + used_block_count * stride) required_extra_blocks false true
      let p3 := poolMemset p2 block_end_padding EMB_ALLOC_ALIGN_AMOUNT EMB_ALLOC_INIT_VALUE
      let p4 := if p.settings.init_allocated_memory then
          poolMemset p3 (ptr + data_size) (size - data_size) 0
        else p3
      let p5 := poolWriteWord
        (poolWriteWord p4 (block + EMB_ALLOC_ALIGN_AMOUNT)
          (used_block_count + required_extra_blocks))
        (block + EMB_ALLOC_ALIGN_AMOUNT + 8) size
      let occupied' := category.occupied_blocks + required_extra_blocks
      if category.total_blocks ≤ occupied' then
        (some ptr,
          setCategory p5 ci
            { category with
              occupied_blocks := category.total_blocks
              first_free_address := none
              last_free_address := none })
      else (some ptr, setCategory p5 ci { category with occupied_blocks := occupied' })
    else
      match EmbAllocMallocInternal p1 size with
      | (some return_value, pm) =>
        (some return_value,
          EmbAllocFreeBlockInternal
            (poolWriteBytes pm return_value
              (poolReadBytes pm ptr (poolReadWord pm (block + EMB_ALLOC_ALIGN_AMOUNT + 8))))
            ci ptr)
      | (none, pm) => (none, EmbAllocFreeBlockInternal pm ci ptr)

/-- `EmbAllocReallocInternal` from `emb_alloc.c`. -/
def EmbAllocReallocInternal (p : EmbPool) (ptr size : Nat) : Option Nat × EmbPool :=
  match EmbAllocGetCategoryForPtr p ptr with
  | (some ci, p1) => EmbAllocReallocBlockInternal p1 ci ptr size
  | (none, p1) =>
    (none,
      EmbAllocSetErrorInternal p1 kEmbAllocPointerParamError
        EMB_ALLOC_INVALID_POINTER_PARAM_ERROR none)

/-- `EmbAllocRealloc` from `emb_alloc.c`, on a valid pool: clear the last
error; a NULL pointer behaves as `EmbAllocMalloc`; a zero size frees the
pointer and returns NULL; otherwise the run is reallocated.  (The mutex
interaction is outside the model.) -/
def EmbAllocRealloc (p : EmbPool) (ptr : Option Nat) (size : Nat) : Option Nat × EmbPool :=
  let p0 := ClearMempoolErrorInternal p
  match ptr with
  | none => if size ≠ 0 then EmbAllocMallocInternal p0 size else (none, p0)
  | some a =>
    if poolReadBytes p0 (a - EMB_ALLOC_BLOCK_START_CONTROL_ALIGN_SIZE)
        EMB_ALLOC_ALIGN_AMOUNT = kEmbAllocBlockStart then
      if size = 0 then (none, EmbAllocFreeInternal p0 a)
      else EmbAllocReallocInternal p0 a size
    else
      (none,
        EmbAllocSetErrorInternal p0 kEmbAllocPointerParamError
          EMB_ALLOC_INVALID_POINTER_PARAM_ERROR none)

/-- A settings record with no blocks and all flags off; the concrete
scenarios below override the fields they need. -/
def baselineSettings : EmbAllocMemPoolSettings :=
  { total_size := 0, num_32_bytes_blocks := 0, num_64_bytes_blocks := 0,
    num_128_bytes_blocks := 0, num_256_bytes_blocks := 0, num_512_bytes_blocks := 0,
    num_1k_bytes_blocks := 0, num_2k_bytes_blocks := 0, num_4k_bytes_blocks := 0,
    threadsafe := false, full_overflow_checks := false, init_allocated_memory := false }

/-- A pool with six 32-byte blocks (consistent settings). -/
def poolSix32 : EmbPool :=
  (EmbAllocCreate { baselineSettings with num_32_bytes_blocks := 6, total_size := 192 }
    true).getD default

/-- `poolSix32` after `Malloc 10`, `Malloc 10` and `Free` of the first
pointer: block 0 free, block 1 live, blocks 2..5 free, with
`first_free_address` at block 0 and `last_free_address` at block 5. -/
def poolSix32Holed : EmbPool :=
  EmbAllocFree (EmbAllocMalloc (EmbAllocMalloc poolSix32 10).2 10).2 (some 1280)

/-- A pool with two 32-byte blocks (consistent settings). -/
def poolTwo32 : EmbPool :=
  (EmbAllocCreate { baselineSettings with num_32_bytes_blocks := 2, total_size := 64 }
    true).getD default

/-- `Malloc 33` on `poolTwo32`: a two-block run occupying the whole
category (the request needs `k = 2` blocks of the 32-byte category). -/
def poolTwo32Run : Option Nat × EmbPool := EmbAllocMalloc poolTwo32 33

/-- A pool with one 32-byte block (consistent settings). -/
def poolOne32 : EmbPool :=
  (EmbAllocCreate { baselineSettings with num_32_bytes_blocks := 1, total_size := 32 }
    true).getD default

/-- `Malloc 10` on `poolOne32`: the single block becomes live and the
category saturates. -/
def poolOne32Full : Option Nat × EmbPool := EmbAllocMalloc poolOne32 10

/-- A pool with three 64-byte blocks and two 256-byte blocks (consistent
settings). -/
def poolMixed : EmbPool :=
  (EmbAllocCreate
    { baselineSettings with
        num_64_bytes_blocks := 3
        num_256_bytes_blocks := 2
        total_size := 704 } true).getD default

theorem nat_div_add_ite_eq_ceil (x y : Nat) (hy : 0 < y) :
    x / y + (if x % y ≠ 0 then 1 else 0) = (x + y - 1) / y := by
  rcases Nat.eq_zero_or_pos (x % y) with h | h
  · obtain ⟨q, rfl⟩ := Nat.dvd_of_mod_eq_zero h
    have h0 : y * q % y = 0 := Nat.mul_mod_right y q
    rw [if_neg (by simp [h0]), Nat.mul_div_cancel_left q hy,
      Nat.add_sub_assoc hy, Nat.mul_add_div hy,
      Nat.div_eq_of_lt (by omega), Nat.add_zero]
  · have key := Nat.div_add_mod x y
    have hr : x % y < y := Nat.mod_lt x hy
    have hx : x + y - 1 = y * (x / y + 1) + (x % y - 1) := by
      have e : y * (x / y + 1) = y * (x / y) + y := by ring
      omega
    have hz : (x % y - 1) / y = 0 := Nat.div_eq_of_lt (by omega)
    rw [if_pos (Nat.pos_iff_ne_zero.mp h), hx, Nat.mul_add_div hy, hz]

/-- Counterexample for claim C5: at the representable request
`n = SIZE_MAX` (= `EMB_ALLOC_VALUE_NOT_SET`) with class data size 32, the
`size_t` sum `n + 3A` wraps to 47, so the program computes a run length of
1 — not the ceiling `⌈(n + 3A) / (d + 3A)⌉` that exact integer arithmetic
would give. -/
theorem multi_blocks_count_wraps_at_size_max :
    0 < EMB_ALLOC_VALUE_NOT_SET ∧
    embMultiBlocksCount EMB_ALLOC_VALUE_NOT_SET 32 = 1 ∧
    (EMB_ALLOC_VALUE_NOT_SET + 3 * EMB_ALLOC_ALIGN_AMOUNT +
        (32 + 3 * EMB_ALLOC_ALIGN_AMOUNT) - 1) /
      (32 + 3 * EMB_ALLOC_ALIGN_AMOUNT) ≠ 1 :=
  ⟨by decide, by decide, by decide⟩

/-- Claim C5 (amended): for every requested size `n > 0` whose `size_t`
sum `n + 3A` does not wrap (`n + 3A < 2 ^ 64`) and every class data size
`d` (class data sizes are at most 4096), the run length computed by the
multi-block feasibility scan (`EmbAllocCanAllocInMultipleBlocksInternal`,
via `embMultiBlocksCount`) equals the ceiling `⌈(n + 3A) / (d + 3A)⌉`
with `A = EMB_ALLOC_ALIGN_AMOUNT`, in exact integer arithmetic. -/
theorem multi_blocks_count_is_ceil_within_size_t (n d : Nat) (hn : 0 < n)
    (hno : n + 3 * EMB_ALLOC_ALIGN_AMOUNT < 2 ^ 64) (hd : d ≤ 4096) :
    embMultiBlocksCount n d =
      (n + 3 * EMB_ALLOC_ALIGN_AMOUNT + (d + 3 * EMB_ALLOC_ALIGN_AMOUNT) - 1) /
        (d + 3 * EMB_ALLOC_ALIGN_AMOUNT) := by
  have hy : 0 < d + 3 * EMB_ALLOC_ALIGN_AMOUNT := by
    simp [EMB_ALLOC_ALIGN_AMOUNT]
  have e1 : EMB_ALLOC_BLOCK_TOTAL_ALIGN_SIZE n % 2 ^ 64 =
      n + 3 * EMB_ALLOC_ALIGN_AMOUNT := by
    simp only [EMB_ALLOC_BLOCK_TOTAL_ALIGN_SIZE, EMB_ALLOC_BLOCK_CONTROL_ALIGN_SIZE]
    exact Nat.mod_eq_of_lt hno
  have e2 : EMB_ALLOC_BLOCK_TOTAL_ALIGN_SIZE d % 2 ^ 64 =
      d + 3 * EMB_ALLOC_ALIGN_AMOUNT := by
    simp only [EMB_ALLOC_BLOCK_TOTAL_ALIGN_SIZE, EMB_ALLOC_BLOCK_CONTROL_ALIGN_SIZE]
    refine Nat.mod_eq_of_lt ?_
    simp only [EMB_ALLOC_ALIGN_AMOUNT]
    omega
  simp only [embMultiBlocksCount, e1, e2]
  exact nat_div_add_ite_eq_ceil (n + 3 * EMB_ALLOC_ALIGN_AMOUNT)
    (d + 3 * EMB_ALLOC_ALIGN_AMOUNT) hy

/-- Witness for `multi_blocks_count_is_ceil_within_size_t` at `n = 100`,
`d = 64`. -/
theorem multi_blocks_count_is_ceil_within_size_t_witness :
    0 < 100 ∧ 100 + 3 * EMB_ALLOC_ALIGN_AMOUNT < 2 ^ 64 ∧ 64 ≤ 4096 ∧
    embMultiBlocksCount 100 64 =
      (100 + 3 * EMB_ALLOC_ALIGN_AMOUNT + (64 + 3 * EMB_ALLOC_ALIGN_AMOUNT) - 1) /
        (64 + 3 * EMB_ALLOC_ALIGN_AMOUNT) :=
  ⟨by decide, by decide, by decide,
    multi_blocks_count_is_ceil_within_size_t 100 64 (by decide) (by decide) (by decide)⟩

theorem adjacentEqual_eq_all (b : Nat) (rest : List Nat) :
    adjacentEqual (b :: rest) = rest.all (· == b) := by
  induction rest generalizing b with
  | nil => rfl
  | cons c rest ih =>
    by_cases h : b = c
    · subst h
      simp [adjacentEqual, ih]
    · have h1 : (b == c) = false := by simp [h]
      have h2 : (c == b) = false := by simp [Ne.symm h]
      simp [adjacentEqual, List.all_cons, h1, h2]

/-- Claim C9 (amended): `EmbAllocCheckBuffer` is trivially true for a NULL
buffer or a zero size; for a non-empty buffer it returns true exactly when
the first byte equals the reference value and every remaining byte equals
the first byte (at size 1 this degenerates to `buffer[0] == ref`, not to
an unconditional true). -/
theorem check_buffer_head_and_all_equal (ref b : Nat) (rest : List Nat) :
    EmbAllocCheckBuffer none ref = true ∧
    EmbAllocCheckBuffer (some []) ref = true ∧
    EmbAllocCheckBuffer (some (b :: rest)) ref = ((b == ref) && rest.all (· == b)) := by
  refine ⟨rfl, rfl, ?_⟩
  simp only [EmbAllocCheckBuffer, adjacentEqual_eq_all]

/-- Counterexample for claim C9: at size 1 (≤ 1) with a first byte that
differs from the reference value, `EmbAllocCheckBuffer` returns false,
whereas the claim states that it is trivially true whenever `size ≤ 1`. -/
theorem check_buffer_size_one_not_trivially_true :
    EmbAllocCheckBuffer (some [0]) EMB_ALLOC_INIT_VALUE = false ∧
    ([0] : List Nat).length ≤ 1 := ⟨rfl, by decide⟩

/-- Claim C10: on a valid pool, `EmbAllocMalloc` with size 0 returns NULL
and only clears the last error (code `kEmbAllocNoErr`, empty message); the
error log (callback trace), the category table (cursors and occupancy) and
the block memory are untouched. -/
theorem malloc_zero_size_no_op (p : EmbPool) :
    EmbAllocMalloc p 0 =
      (none, { p with last_error := kEmbAllocNoErr, last_error_message := "" }) ∧
    ({ p with last_error := kEmbAllocNoErr, last_error_message := "" } : EmbPool).categories
        = p.categories ∧
    ({ p with last_error := kEmbAllocNoErr, last_error_message := "" } : EmbPool).mem
        = p.mem ∧
    ({ p with last_error := kEmbAllocNoErr, last_error_message := "" } : EmbPool).error_log
        = p.error_log :=
  ⟨rfl, rfl, rfl, rfl⟩

/-- Claim C4: when the descending category scan of `EmbAllocMallocInternal`
recorded both a single-block candidate `large_size_block_idx = l` and a
multi-block candidate `small_size_block_idx = s` with run length `cnt`,
the allocator compares the residual free payload bytes after the
hypothetical allocation — `dL * (totalL - occupiedL - 1)` against
`dS * (totalS - occupiedS - cnt)` — allocating one block in `l` exactly
when the large-class residual is the greater, and otherwise allocating the
`cnt`-block run in `s`. -/
theorem malloc_residual_decision (p p' : EmbPool) (size l s : Nat)
    (addr : Option Nat) (cnt : Nat)
    (h0 : EMB_ALLOC_CAN_ALLOC_IN_A_BLOCK (p.categories.getD 0 default) size = false)
    (hscan : embMallocDescendingScan p size =
      (EmbMallocScanResult.scanned (some l) (some s) addr cnt, p')) :
    EmbAllocMallocInternal p size =
      (if (p'.categories.getD s default).block_data_size *
            ((p'.categories.getD s default).total_blocks -
              (p'.categories.getD s default).occupied_blocks - cnt) <
          (p'.categories.getD l default).block_data_size *
            ((p'.categories.getD l default).total_blocks -
              (p'.categories.getD l default).occupied_blocks - 1) then
        EmbAllocMallocOneBlockInternal p' l size
      else EmbAllocMallocMultiBlocksInternal p' s size addr cnt) := by
  unfold EmbAllocMallocInternal
  rw [hscan, if_neg (by rw [h0]; simp)]
  simp

set_option maxRecDepth 100000 in
/-- Witness for `malloc_residual_decision` on `poolMixed` with size 100:
the scan records the 256-byte category (index 3) as the single-block
candidate and a 2-block run in the 64-byte category (index 1); the
residuals are 256 and 64, so one 256-byte block is allocated. -/
theorem malloc_residual_decision_witness :
    EMB_ALLOC_CAN_ALLOC_IN_A_BLOCK (poolMixed.categories.getD 0 default) 100 = false ∧
    embMallocDescendingScan poolMixed 100 =
      (EmbMallocScanResult.scanned (some 3) (some 1) (some 1248) 2, poolMixed) ∧
    EmbAllocMallocInternal poolMixed 100 =
      (if (poolMixed.categories.getD 1 default).block_data_size *
            ((poolMixed.categories.getD 1 default).total_blocks -
              (poolMixed.categories.getD 1 default).occupied_blocks - 2) <
          (poolMixed.categories.getD 3 default).block_data_size *
            ((poolMixed.categories.getD 3 default).total_blocks -
              (poolMixed.categories.getD 3 default).occupied_blocks - 1) then
        EmbAllocMallocOneBlockInternal poolMixed 3 100
      else EmbAllocMallocMultiBlocksInternal poolMixed 1 100 (some 1248) 2) :=
  ⟨by decide, by decide,
    malloc_residual_decision poolMixed poolMixed 100 3 1 (some 1248) 2
      (by decide) (by decide)⟩





/-- Counterexample for claim C6: freeing a pointer whose preceding bytes
equal the block start marker but whose `run_count` word is
`EMB_ALLOC_VALUE_NOT_SET` (here: the payload pointer of a never-allocated
block of `poolOne32`) leaves `kEmbAllocPointerParamError` as the last
error, not `kEmbAllocOverflow` as the claim states. -/
theorem free_unset_counter_last_error_not_overflow :
    poolReadBytes poolOne32 1248 EMB_ALLOC_ALIGN_AMOUNT = kEmbAllocBlockStart ∧
    poolReadWord poolOne32 1264 = EMB_ALLOC_VALUE_NOT_SET ∧
    EmbAllocGetLastErrorCode (EmbAllocFree poolOne32 (some 1280)) =
      kEmbAllocPointerParamError ∧
    kEmbAllocPointerParamError ≠ kEmbAllocOverflow :=
  ⟨rfl, rfl, rfl, by decide⟩

/-- Claim C6 (amended): for a pointer whose preceding bytes equal the block
start marker but whose `run_count` word — or, failing that, whose
`data_size` word — is `EMB_ALLOC_VALUE_NOT_SET` (for example a pointer that
was already freed), `EmbAllocFree` reports `kEmbAllocOverflow` and forces
the other counter word to `EMB_ALLOC_VALUE_NOT_SET` as well (so both
counters end up unset) — but the category lookup then fails and the free
path additionally records `kEmbAllocPointerParamError`; since only the most
recent error is retained, `EmbAllocGetLastErrorCode` immediately afterwards
returns `kEmbAllocPointerParamError` (the `Overflow` report still precedes
it in the callback trace). -/
theorem free_unset_counter_reports_overflow_then_pointer_param (p : EmbPool) (a : Nat)
    (ha : EMB_ALLOC_BLOCK_START_CONTROL_ALIGN_SIZE ≤ a)
    (hhead : poolReadBytes p (a - EMB_ALLOC_BLOCK_START_CONTROL_ALIGN_SIZE)
        EMB_ALLOC_ALIGN_AMOUNT = kEmbAllocBlockStart)
    (hun : poolReadWord p (a - EMB_ALLOC_ALIGN_AMOUNT) = EMB_ALLOC_VALUE_NOT_SET ∨
      poolReadWord p (a - 8) = EMB_ALLOC_VALUE_NOT_SET) :
    EmbAllocFree p (some a) =
      (if poolReadWord p (a - EMB_ALLOC_ALIGN_AMOUNT) = EMB_ALLOC_VALUE_NOT_SET then
        { p with
          last_error := kEmbAllocPointerParamError
          last_error_message := EMB_ALLOC_INVALID_POINTER_PARAM_ERROR
          error_log := p.error_log ++
            [(kEmbAllocOverflow, some (a - EMB_ALLOC_ALIGN_AMOUNT)),
             (kEmbAllocPointerParamError, none)]
          mem := writeWord p.mem (memOff (a - 8)) EMB_ALLOC_VALUE_NOT_SET }
      else
        { p with
          last_error := kEmbAllocPointerParamError
          last_error_message := EMB_ALLOC_INVALID_POINTER_PARAM_ERROR
          error_log := p.error_log ++
            [(kEmbAllocOverflow, some (a - 8)),
             (kEmbAllocPointerParamError, none)]
          mem := writeWord p.mem (memOff (a - EMB_ALLOC_ALIGN_AMOUNT))
            EMB_ALLOC_VALUE_NOT_SET }) ∧
    EmbAllocGetLastErrorCode (EmbAllocFree p (some a)) = kEmbAllocPointerParamError := by
  have e1 : a - EMB_ALLOC_BLOCK_START_CONTROL_ALIGN_SIZE + EMB_ALLOC_ALIGN_AMOUNT =
      a - EMB_ALLOC_ALIGN_AMOUNT := by
    simp only [EMB_ALLOC_BLOCK_START_CONTROL_ALIGN_SIZE, EMB_ALLOC_ALIGN_AMOUNT] at ha ⊢
    omega
  have e2 : a - EMB_ALLOC_ALIGN_AMOUNT + 8 = a - 8 := by
    simp only [EMB_ALLOC_BLOCK_START_CONTROL_ALIGN_SIZE, EMB_ALLOC_ALIGN_AMOUNT] at ha ⊢
    omega
  have hhead2 : readBytes p.mem (memOff (a - EMB_ALLOC_BLOCK_START_CONTROL_ALIGN_SIZE))
      EMB_ALLOC_ALIGN_AMOUNT = kEmbAllocBlockStart := hhead
  have step1 : EmbAllocFree p (some a) =
      EmbAllocFreeInternal (ClearMempoolErrorInternal p) a := by
    unfold EmbAllocFree
    exact if_pos hhead
  by_cases hr : poolReadWord p (a - EMB_ALLOC_ALIGN_AMOUNT) = EMB_ALLOC_VALUE_NOT_SET
  · have hrun2 : readWord p.mem (memOff (a - EMB_ALLOC_ALIGN_AMOUNT)) =
        EMB_ALLOC_VALUE_NOT_SET := hr
    have step2 : EmbAllocGetCategoryForPtr (ClearMempoolErrorInternal p) a =
        (none, EmbAllocSetErrorInternal
          (poolWriteWord (ClearMempoolErrorInternal p) (a - 8) EMB_ALLOC_VALUE_NOT_SET)
          kEmbAllocOverflow EMB_ALLOC_OVERFLOW_ERROR
          (some (a - EMB_ALLOC_ALIGN_AMOUNT))) := by
      unfold EmbAllocGetCategoryForPtr
      dsimp only [ClearMempoolErrorInternal, poolReadBytes, poolReadWord, poolWriteWord]
      rw [e1]
      simp only [hhead2, hrun2, if_true, e2]
    have step3 : EmbAllocFreeInternal (ClearMempoolErrorInternal p) a =
        EmbAllocSetErrorInternal
          (EmbAllocSetErrorInternal
            (poolWriteWord (ClearMempoolErrorInternal p) (a - 8) EMB_ALLOC_VALUE_NOT_SET)
            kEmbAllocOverflow EMB_ALLOC_OVERFLOW_ERROR (some (a - EMB_ALLOC_ALIGN_AMOUNT)))
          kEmbAllocPointerParamError EMB_ALLOC_INVALID_POINTER_PARAM_ERROR none := by
      unfold EmbAllocFreeInternal
      rw [step2]
    have hmain : EmbAllocFree p (some a) =
        { p with
          last_error := kEmbAllocPointerParamError
          last_error_message := EMB_ALLOC_INVALID_POINTER_PARAM_ERROR
          error_log := p.error_log ++
            [(kEmbAllocOverflow, some (a - EMB_ALLOC_ALIGN_AMOUNT)),
             (kEmbAllocPointerParamError, none)]
          mem := writeWord p.mem (memOff (a - 8)) EMB_ALLOC_VALUE_NOT_SET } := by
      rw [step1, step3]
      simp [EmbAllocSetErrorInternal, poolWriteWord, ClearMempoolErrorInternal]
    rw [if_pos hr]
    exact ⟨hmain, by rw [hmain]; rfl⟩
  · have hd : poolReadWord p (a - 8) = EMB_ALLOC_VALUE_NOT_SET := hun.resolve_left hr
    have hr2 : ¬ readWord p.mem (memOff (a - EMB_ALLOC_ALIGN_AMOUNT)) =
        EMB_ALLOC_VALUE_NOT_SET := hr
    have hd2 : readWord p.mem (memOff (a - 8)) = EMB_ALLOC_VALUE_NOT_SET := hd
    have step2 : EmbAllocGetCategoryForPtr (ClearMempoolErrorInternal p) a =
        (none, EmbAllocSetErrorInternal
          (poolWriteWord (ClearMempoolErrorInternal p) (a - EMB_ALLOC_ALIGN_AMOUNT)
            EMB_ALLOC_VALUE_NOT_SET)
          kEmbAllocOverflow EMB_ALLOC_OVERFLOW_ERROR (some (a - 8))) := by
      unfold EmbAllocGetCategoryForPtr
      dsimp only [ClearMempoolErrorInternal, poolReadBytes, poolReadWord, poolWriteWord]
      rw [e1]
      simp only [hhead2, if_true, e2]
      rw [if_neg hr2, if_pos hd2]
    have step3 : EmbAllocFreeInternal (ClearMempoolErrorInternal p) a =
        EmbAllocSetErrorInternal
          (EmbAllocSetErrorInternal
            (poolWriteWord (ClearMempoolErrorInternal p) (a - EMB_ALLOC_ALIGN_AMOUNT)
              EMB_ALLOC_VALUE_NOT_SET)
            kEmbAllocOverflow EMB_ALLOC_OVERFLOW_ERROR (some (a - 8)))
          kEmbAllocPointerParamError EMB_ALLOC_INVALID_POINTER_PARAM_ERROR none := by
      unfold EmbAllocFreeInternal
      rw [step2]
    have hmain : EmbAllocFree p (some a) =
        { p with
          last_error := kEmbAllocPointerParamError
          last_error_message := EMB_ALLOC_INVALID_POINTER_PARAM_ERROR
          error_log := p.error_log ++
            [(kEmbAllocOverflow, some (a - 8)),
             (kEmbAllocPointerParamError, none)]
          mem := writeWord p.mem (memOff (a - EMB_ALLOC_ALIGN_AMOUNT))
            EMB_ALLOC_VALUE_NOT_SET } := by
      rw [step1, step3]
      simp [EmbAllocSetErrorInternal, poolWriteWord, ClearMempoolErrorInternal]
    rw [if_neg hr]
    exact ⟨hmain, by rw [hmain]; rfl⟩

/-- Witness for `free_unset_counter_reports_overflow_then_pointer_param`
on `poolOne32` with the payload pointer 1280 of its (free) block, whose
`run_count` word is unset. -/
theorem free_unset_counter_reports_overflow_then_pointer_param_witness :
    EMB_ALLOC_BLOCK_START_CONTROL_ALIGN_SIZE ≤ 1280 ∧
    poolReadBytes poolOne32 (1280 - EMB_ALLOC_BLOCK_START_CONTROL_ALIGN_SIZE)
        EMB_ALLOC_ALIGN_AMOUNT = kEmbAllocBlockStart ∧
    (poolReadWord poolOne32 (1280 - EMB_ALLOC_ALIGN_AMOUNT) = EMB_ALLOC_VALUE_NOT_SET ∨
      poolReadWord poolOne32 (1280 - 8) = EMB_ALLOC_VALUE_NOT_SET) ∧
    ((EmbAllocFree poolOne32 (some 1280) =
      (if poolReadWord poolOne32 (1280 - EMB_ALLOC_ALIGN_AMOUNT) =
          EMB_ALLOC_VALUE_NOT_SET then
        { poolOne32 with
          last_error := kEmbAllocPointerParamError
          last_error_message := EMB_ALLOC_INVALID_POINTER_PARAM_ERROR
          error_log := poolOne32.error_log ++
            [(kEmbAllocOverflow, some (1280 - EMB_ALLOC_ALIGN_AMOUNT)),
             (kEmbAllocPointerParamError, none)]
          mem := writeWord poolOne32.mem (memOff (1280 - 8)) EMB_ALLOC_VALUE_NOT_SET }
      else
        { poolOne32 with
          last_error := kEmbAllocPointerParamError
          last_error_message := EMB_ALLOC_INVALID_POINTER_PARAM_ERROR
          error_log := poolOne32.error_log ++
            [(kEmbAllocOverflow, some (1280 - 8)),
             (kEmbAllocPointerParamError, none)]
          mem := writeWord poolOne32.mem (memOff (1280 - EMB_ALLOC_ALIGN_AMOUNT))
            EMB_ALLOC_VALUE_NOT_SET })) ∧
     EmbAllocGetLastErrorCode (EmbAllocFree poolOne32 (some 1280)) =
       kEmbAllocPointerParamError) :=
  ⟨by decide, by decide, Or.inl (by decide),
    free_unset_counter_reports_overflow_then_pointer_param poolOne32 1280
      (by decide) (by decide) (Or.inl (by decide))⟩

/-- Claim C7: in `EmbAllocReallocBlockInternal`, when the requested size
exceeds the current run's payload capacity and the run cannot be extended
in place (not enough free blocks in the category, or the blocks after the
run are not all free), a fresh allocation is attempted and the original
run is freed unconditionally afterwards: on success, `data_size` bytes are
copied from the old payload to the new one and the new pointer is
returned; on allocation failure the original run is freed anyway and NULL
is returned. -/
theorem realloc_relocation_frees_original_unconditionally (p : EmbPool) (ci ptr size k : Nat)
    (hfc : p.settings.full_overflow_checks = false)
    (ha : EMB_ALLOC_BLOCK_START_CONTROL_ALIGN_SIZE ≤ ptr)
    (hused : poolReadWord p (ptr - EMB_ALLOC_ALIGN_AMOUNT) = k)
    (hne : size ≠ poolReadWord p (ptr - 8))
    (hnlt : ¬ size < poolReadWord p (ptr - 8))
    (hncap : ¬ size < (p.categories.getD ci default).block_data_size +
        (k - 1) * EMB_ALLOC_BLOCK_TOTAL_ALIGN_SIZE
          ((p.categories.getD ci default).block_data_size))
    (hrel : ¬ (embRequiredExtraBlocks size
          ((p.categories.getD ci default).block_data_size +
            (k - 1) * EMB_ALLOC_BLOCK_TOTAL_ALIGN_SIZE
              ((p.categories.getD ci default).block_data_size))
          (EMB_ALLOC_BLOCK_TOTAL_ALIGN_SIZE
            ((p.categories.getD ci default).block_data_size)) ≤
        (p.categories.getD ci default).total_blocks -
          (p.categories.getD ci default).occupied_blocks ∧
      embCanReallocContinuously p (ptr - EMB_ALLOC_BLOCK_START_CONTROL_ALIGN_SIZE)
        (EMB_ALLOC_BLOCK_TOTAL_ALIGN_SIZE
          ((p.categories.getD ci default).block_data_size)) k
        (embRequiredExtraBlocks size
          ((p.categories.getD ci default).block_data_size +
            (k - 1) * EMB_ALLOC_BLOCK_TOTAL_ALIGN_SIZE
              ((p.categories.getD ci default).block_data_size))
          (EMB_ALLOC_BLOCK_TOTAL_ALIGN_SIZE
            ((p.categories.getD ci default).block_data_size))) = true)) :
    EmbAllocReallocBlockInternal p ci ptr size =
      match EmbAllocMallocInternal p size with
      | (some rv, pm) =>
        (some rv, EmbAllocFreeBlockInternal
          (poolWriteBytes pm rv (poolReadBytes pm ptr (poolReadWord pm (ptr - 8)))) ci ptr)
      | (none, pm) => (none, EmbAllocFreeBlockInternal pm ci ptr) := by
  have e1 : ptr - EMB_ALLOC_BLOCK_START_CONTROL_ALIGN_SIZE + EMB_ALLOC_ALIGN_AMOUNT =
      ptr - EMB_ALLOC_ALIGN_AMOUNT := by
    simp only [EMB_ALLOC_BLOCK_START_CONTROL_ALIGN_SIZE, EMB_ALLOC_ALIGN_AMOUNT] at ha ⊢
    omega
  have e2 : ptr - EMB_ALLOC_ALIGN_AMOUNT + 8 = ptr - 8 := by
    simp only [EMB_ALLOC_BLOCK_START_CONTROL_ALIGN_SIZE, EMB_ALLOC_ALIGN_AMOUNT] at ha ⊢
    omega
  have hused2 : readWord p.mem (memOff (ptr - EMB_ALLOC_ALIGN_AMOUNT)) = k := hused
  have hne2 : size ≠ readWord p.mem (memOff (ptr - 8)) := hne
  have hnlt2 : ¬ size < readWord p.mem (memOff (ptr - 8)) := hnlt
  unfold EmbAllocReallocBlockInternal
  dsimp only [poolReadWord, poolReadBytes]
  rw [hfc]
  simp only [Bool.false_and, Bool.false_eq_true, if_false, e1, e2, hused2]
  rw [if_neg hne2, if_neg hnlt2, if_neg hncap, if_neg hrel]

/-- Witness for `realloc_relocation_frees_original_unconditionally`:
reallocating the single live 32-byte block of `poolOne32Full` to 200 bytes
needs 3 extra blocks in a saturated one-block category, so the relocation
path runs; the fresh allocation fails (`EmbAllocMallocInternal` returns
NULL), yet the original run is freed and NULL is returned. -/
theorem realloc_relocation_frees_original_unconditionally_witness :
    (poolOne32Full.2).settings.full_overflow_checks = false ∧
    EMB_ALLOC_BLOCK_START_CONTROL_ALIGN_SIZE ≤ 1280 ∧
    poolReadWord poolOne32Full.2 (1280 - EMB_ALLOC_ALIGN_AMOUNT) = 1 ∧
    200 ≠ poolReadWord poolOne32Full.2 (1280 - 8) ∧
    ¬ 200 < poolReadWord poolOne32Full.2 (1280 - 8) ∧
    (EmbAllocReallocBlockInternal poolOne32Full.2 0 1280 200 =
      match EmbAllocMallocInternal poolOne32Full.2 200 with
      | (some rv, pm) =>
        (some rv, EmbAllocFreeBlockInternal
          (poolWriteBytes pm rv
            (poolReadBytes pm 1280 (poolReadWord pm (1280 - 8)))) 0 1280)
      | (none, pm) => (none, EmbAllocFreeBlockInternal pm 0 1280)) :=
  ⟨by decide, by decide, by decide, by decide, by decide,
    realloc_relocation_frees_original_unconditionally poolOne32Full.2 0 1280 200 1
      (by decide) (by decide) (by decide) (by decide) (by decide) (by decide) (by decide)⟩

set_option maxRecDepth 100000 in
/-- Claim C1 (code bug): on `poolSix32Holed` — block 0 free, block 1 live,
blocks 2..5 free, cursors bracketing all free blocks — a request of 33
bytes needs a run of `k = 2` blocks, and blocks 2 and 3 form such a run
inside `[first_free_address, last_free_address]`; yet
`EmbAllocCanAllocInMultipleBlocksInternal` returns false, because after
the live block it short-circuits when the remaining span is *greater*
than `k` (`emb_alloc.c` line 1089), the opposite of the "remaining span
cannot fit `k`" condition its own comment and the claim state. -/
theorem multi_block_scan_misses_feasible_run :
    (EmbAllocCanAllocInMultipleBlocksInternal poolSix32Holed 0 33).1 = false ∧
    (EmbAllocCanAllocInMultipleBlocksInternal poolSix32Holed 0 33).2.2.1 = 2 ∧
    (poolSix32Holed.categories.getD 0 default).first_free_address = some 1248 ∧
    (poolSix32Holed.categories.getD 0 default).last_free_address = some 1648 ∧
    (poolSix32Holed.categories.getD 0 default).occupied_blocks = 1 ∧
    poolReadWord poolSix32Holed (1408 + EMB_ALLOC_ALIGN_AMOUNT) =
      EMB_ALLOC_VALUE_NOT_SET ∧
    poolReadWord poolSix32Holed (1488 + EMB_ALLOC_ALIGN_AMOUNT) =
      EMB_ALLOC_VALUE_NOT_SET :=
  ⟨rfl, rfl, rfl, rfl, rfl, rfl, rfl⟩

set_option maxRecDepth 100000 in
/-- Claim C2 (code bug): on `poolTwo32` (two 32-byte blocks, all free,
`last_free_address` at block 1 = address 1328), `Malloc 33` allocates the
2-block run and saturates the category; the immediate `Free` of that
pointer restores the block bytes, the occupancy and `first_free_address`,
but sets `last_free_address` to the run's *first* block (1248) instead of
its pre-Malloc value (1328) — `EmbAllocFreeBlockInternal` relaxes both
cursors towards the freed run's first block only (`emb_alloc.c` lines
1386-1389), so `Free (Malloc pool n)` does not restore the pool state. -/
theorem free_after_malloc_does_not_restore_last_free_cursor :
    poolTwo32Run.1 = some 1280 ∧
    (poolTwo32.categories.getD 0 default).last_free_address = some 1328 ∧
    ((EmbAllocFree poolTwo32Run.2 (some 1280)).categories.getD 0
        default).last_free_address = some 1248 ∧
    (EmbAllocFree poolTwo32Run.2 (some 1280)).mem = poolTwo32.mem ∧
    ((EmbAllocFree poolTwo32Run.2 (some 1280)).categories.getD 0
        default).occupied_blocks = 0 ∧
    ((EmbAllocFree poolTwo32Run.2 (some 1280)).categories.getD 0
        default).first_free_address = some 1248 :=
  ⟨rfl, rfl, rfl, rfl, rfl, rfl⟩

set_option maxRecDepth 100000 in
/-- Claim C3 (code bug): the live run of `poolTwo32Run` has `k = 2`,
`d = 32`, `data_size = 33` and payload capacity
`B = 2 * 32 + 1 * 3 * 16 = 112`; reallocating it to exactly `n = B = 112`
returns the same pointer, sets `data_size` to 112 and leaves `run_count`
and `occupied_blocks` unchanged — but the `BLK_TAIL` sentinel at the end
of the run (address 1392) is overwritten with poison bytes: the in-place
branch requires `size < block_data_size` strictly (`emb_alloc.c` line
1532), so `n = B` takes the extension path with zero extra blocks, which
erases the old end padding (line 1587) and writes no new one. -/
theorem realloc_to_exact_capacity_destroys_end_marker :
    (EmbAllocRealloc poolTwo32Run.2 (some 1280) 112).1 = some 1280 ∧
    poolReadWord (EmbAllocRealloc poolTwo32Run.2 (some 1280) 112).2 1264 = 2 ∧
    poolReadWord (EmbAllocRealloc poolTwo32Run.2 (some 1280) 112).2 1272 = 112 ∧
    ((EmbAllocRealloc poolTwo32Run.2 (some 1280) 112).2.categories.getD 0
        default).occupied_blocks = 2 ∧
    poolReadBytes (EmbAllocRealloc poolTwo32Run.2 (some 1280) 112).2 1392
        EMB_ALLOC_ALIGN_AMOUNT =
      List.replicate EMB_ALLOC_ALIGN_AMOUNT EMB_ALLOC_INIT_VALUE ∧
    List.replicate EMB_ALLOC_ALIGN_AMOUNT EMB_ALLOC_INIT_VALUE ≠ kEmbAllocBlockEnd :=
  ⟨rfl, rfl, rfl, rfl, rfl, by decide⟩
